import Mathlib

/-!
Verification development for the Clockodo MCP remote data client
(`src/clockodo.ts`).  The definitions below are a shallow embedding of the
TypeScript source: JavaScript `Error` objects become `JsError`, the zod
schemas become explicit field-spec lists checked over a `Json` value type,
`fetch` outcomes become `NetResult`, and the three `while (hasMorePages)`
pagination loops become the fuel-indexed function `paginateGo` (fuel models
the a-priori unbounded `while` loop; `none` means the loop was still
running when the fuel ran out).  Timestamps written by the file logger are
not modelled; a log line is its message together with the key/value pairs
of the logged data object.
-/

namespace Clockodo

/-- A JavaScript `Error` value as observed by callers: its constructor kind
(`"Error"`, `"TypeError"`, `"ZodError"`, ...) and its `message`. -/
structure JsError where
  kind : String
  message : String
deriving Repr, DecidableEq

/-- The paging envelope common to all three endpoints
(`items_per_page`, `current_page`, `count_pages`, `count_items`,
all `z.number()` in the source; modelled as integers). -/
structure Paging where
  items_per_page : Int
  current_page : Int
  count_pages : Int
  count_items : Int
deriving Repr, DecidableEq

/-- A validated page response: the payload array (field `data` for
users/projects, `entries` for entries) plus the paging envelope. -/
structure PageResp (α : Type) where
  items : List α
  paging : Paging
deriving Repr, DecidableEq

/-- JSON values, as delivered by `response.json()`. -/
inductive Json where
  | null : Json
  | bool : Bool → Json
  | num : Int → Json
  | str : String → Json
  | arr : List Json → Json
  | obj : List (String × Json) → Json

/-- Object field lookup (`body.key`). -/
def getField (fields : List (String × Json)) (k : String) : Option Json :=
  (fields.find? (fun kv => kv.1 = k)).map (fun kv => kv.2)

/-- The primitive zod types used by the schemas in `clockodo.ts`. -/
inductive FieldKind where
  | fnum : FieldKind
  | fstr : FieldKind
  | fbool : FieldKind
  | fnumArr : FieldKind
  | fany : FieldKind
deriving Repr, DecidableEq

/-- One declared object field: name, primitive type, and whether the source
schema marks it `.nullable()` and/or `.optional()`. -/
structure FieldSpec where
  name : String
  kind : FieldKind
  nullable : Bool
  optional : Bool
deriving Repr, DecidableEq

/-- Type check of a present, non-null value against a primitive zod type;
returns the list of validation issues (empty when the value conforms). -/
def checkValue (path : String) (kind : FieldKind) (j : Json) : List String :=
  match kind, j with
  | .fany, _ => []
  | .fnum, .num _ => []
  | .fstr, .str _ => []
  | .fbool, .bool _ => []
  | .fnumArr, .arr xs =>
      (xs.map (fun x => match x with | .num _ => ([] : List String)
                                     | _ => [path ++ ": Expected number element"])).flatten
  | _, _ => [path ++ ": Invalid type"]

/-- Check one declared field of an object, zod style: a missing key is an
issue unless the field is `.optional()`, a null value is an issue unless
the field is `.nullable()`, otherwise the primitive type is checked. -/
def checkField (path : String) (fields : List (String × Json)) (fs : FieldSpec) :
    List String :=
  match getField fields fs.name with
  | none => if fs.optional then [] else [path ++ "." ++ fs.name ++ ": Required"]
  | some .null =>
      if fs.nullable then [] else [path ++ "." ++ fs.name ++ ": Invalid type"]
  | some j => checkValue (path ++ "." ++ fs.name) fs.kind j

/-- `ClockodoUserSchema` from `clockodo.ts`: the declared fields in source
order (`z.any()` fields are modelled as accepting anything, including
absence, which is zod's behaviour for `z.any().nullable().optional()`). -/
def ClockodoUserSchema : List FieldSpec :=
  [⟨"id", .fnum, false, false⟩,
   ⟨"name", .fstr, false, false⟩,
   ⟨"email", .fstr, false, false⟩,
   ⟨"number", .fstr, true, true⟩,
   ⟨"active", .fbool, false, false⟩,
   ⟨"role", .fstr, true, true⟩,
   ⟨"initials", .fstr, true, true⟩,
   ⟨"language", .fstr, true, true⟩,
   ⟨"timezone", .fstr, true, true⟩,
   ⟨"teams_id", .fnum, true, true⟩,
   ⟨"weekstart_monday", .fbool, false, true⟩,
   ⟨"weekend_friday", .fbool, false, true⟩,
   ⟨"timeformat_12h", .fbool, false, true⟩,
   ⟨"nonbusiness_groups_id", .fnum, true, true⟩,
   ⟨"nonbusinessgroups_id", .fnum, true, true⟩,
   ⟨"work_time_regulations_id", .fnum, true, true⟩,
   ⟨"default_work_time_regulation", .fbool, false, true⟩,
   ⟨"boss", .fany, true, true⟩,
   ⟨"absence_managers_id", .fnumArr, false, true⟩,
   ⟨"can_generally_see_absences", .fbool, false, true⟩,
   ⟨"can_generally_manage_absences", .fbool, false, true⟩,
   ⟨"can_add_customers", .fbool, false, true⟩,
   ⟨"default_holidays_count", .fbool, false, true⟩,
   ⟨"default_target_hours", .fbool, false, true⟩,
   ⟨"future_coworker", .fbool, false, true⟩,
   ⟨"start_date", .fstr, true, true⟩,
   ⟨"wage_type", .fnum, false, true⟩,
   ⟨"worktime_regulation_id", .fnum, true, true⟩,
   ⟨"access_groups_ids", .fnumArr, false, true⟩,
   ⟨"edit_lock", .fany, true, true⟩,
   ⟨"edit_lock_dyn", .fany, true, true⟩,
   ⟨"edit_lock_sync", .fany, true, true⟩,
   ⟨"work_time_edit_lock_days", .fnum, true, true⟩]

/-- The paging sub-schema: four required numbers. -/
def PagingSchema : List FieldSpec :=
  [⟨"items_per_page", .fnum, false, false⟩,
   ⟨"current_page", .fnum, false, false⟩,
   ⟨"count_pages", .fnum, false, false⟩,
   ⟨"count_items", .fnum, false, false⟩]

/-- Validate one user record, collecting the issues of every declared field
(zod validates all keys of an object and aggregates the issues). -/
def checkUser (path : String) (j : Json) : List String :=
  match j with
  | .obj fields => (ClockodoUserSchema.map (checkField path fields)).flatten
  | _ => [path ++ ": Expected object"]

/-- Validate a paging envelope. -/
def checkPaging (path : String) (j : Json) : List String :=
  match j with
  | .obj fields => (PagingSchema.map (checkField path fields)).flatten
  | _ => [path ++ ": Expected object"]

/-- `ClockodoUsersResponseSchema`: `data` is an array of user records,
`paging` is the envelope; issues from every record and from the envelope
are all collected (zod aggregates across array elements and object keys). -/
def checkUsersResponse (j : Json) : List String :=
  match j with
  | .obj fields =>
      (match getField fields "data" with
       | none => ["data: Required"]
       | some (.arr xs) =>
           ((xs.enum).map (fun p => checkUser ("data." ++ toString p.1) p.2)).flatten
       | some _ => ["data: Expected array"]) ++
      (match getField fields "paging" with
       | none => ["paging: Required"]
       | some pj => checkPaging "paging" pj)
  | _ => ["Expected object"]

/-- Numeric projection used when extracting an already-validated value. -/
def jsonInt : Json → Int
  | .num n => n
  | _ => 0

/-- Extract the paging envelope from an already-validated paging object. -/
def extractPaging (j : Json) : Paging :=
  match j with
  | .obj fs =>
      ⟨jsonInt ((getField fs "items_per_page").getD .null),
       jsonInt ((getField fs "current_page").getD .null),
       jsonInt ((getField fs "count_pages").getD .null),
       jsonInt ((getField fs "count_items").getD .null)⟩
  | _ => ⟨0, 0, 0, 0⟩

/-- `ClockodoUsersResponseSchema.parse`: on success the validated response
(each record modelled as its received JSON value — zod passes the declared
field values through unchanged), on failure the full list of issues. -/
def parseUsersResponse (j : Json) : Except (List String) (PageResp Json) :=
  match checkUsersResponse j with
  | [] =>
      match j with
      | .obj fs =>
          Except.ok ⟨(match getField fs "data" with
                      | some (.arr xs) => xs
                      | _ => []),
                     extractPaging ((getField fs "paging").getD .null)⟩
      | _ => Except.ok ⟨[], ⟨0, 0, 0, 0⟩⟩
  | issues => Except.error issues

/-- Rendering of a zod issue list into the `ZodError`'s `message`
(the source interpolates `error.message`, which stringifies every issue;
the exact JSON layout is abstracted to a concatenation). -/
def joinIssues : List String → String
  | [] => ""
  | i :: rest => i ++ joinIssues rest

/-- `sub` occurs somewhere inside `msg`. -/
def strContains (msg sub : String) : Prop :=
  ∃ a b : String, msg = a ++ sub ++ b

/-- `ClockodoEntry` (`z.infer<typeof ClockodoEntrySchema>`): nullable and
optional fields are modelled as `Option`. -/
structure ClockodoEntry where
  id : Int
  customers_id : Int
  projects_id : Option Int
  users_id : Int
  billable : Int
  text : Option String
  time_since : String
  time_until : String
  time_insert : String
  time_last_change : String
  hourly_rate : Option Int
  revenue : Option Int
  budget_is_hours : Option Bool
  budget_is_not_strict : Option Bool
  offset : Option Int
  clocked : Option Bool
  locked : Option Bool
deriving Repr, DecidableEq

/-- The fixed base URL of the remote API. -/
def clockodoBaseUrl : String := "https://my.clockodo.com/api"

/-- The constructed client: credential pair plus base URL. -/
structure ClockodoAPI where
  email : String
  apiKey : String
  baseUrl : String
deriving Repr, DecidableEq

/-- The `ClockodoAPI` constructor: reads `CLOCKODO_EMAIL` and
`CLOCKODO_API_KEY` from the environment (`process.env.X || ""` maps an
absent variable to `""`), and throws when either is empty. -/
def constructClockodoAPI (emailVar apiKeyVar : Option String) :
    Except JsError ClockodoAPI :=
  let email := emailVar.getD ""
  let apiKey := apiKeyVar.getD ""
  if email = "" ∨ apiKey = "" then
    Except.error ⟨"Error",
      "CLOCKODO_EMAIL and CLOCKODO_API_KEY environment variables are required"⟩
  else
    Except.ok ⟨email, apiKey, clockodoBaseUrl⟩

/-- One line of the diagnostic log: the message and the key/value pairs of
the logged data object (timestamps are not modelled). -/
structure LogEntry where
  message : String
  data : List (String × String)
deriving Repr, DecidableEq

/-- The constructor's "ClockodoAPI initialized" log line: the email, the
base URL and the truthiness of the key (`hasApiKey: !!this.apiKey`) — the
key value itself is never logged. -/
def initLog (api : ClockodoAPI) : LogEntry :=
  ⟨"ClockodoAPI initialized",
   [("email", api.email), ("baseUrl", api.baseUrl),
    ("hasApiKey", if api.apiKey = "" then "false" else "true")]⟩

/-- The headers actually sent to the remote host (they carry the real key). -/
def realHeaders (api : ClockodoAPI) : List (String × String) :=
  [("Accept", "application/json"),
   ("X-ClockodoApiUser", api.email),
   ("X-ClockodoApiKey", api.apiKey),
   ("X-Clockodo-External-Application", "mcp-ts")]

/-- The header copy written to the request log: the key slot holds the
literal `"***"` (source comment: "Hide API key in logs"). -/
def maskedHeaders (api : ClockodoAPI) : List (String × String) :=
  [("Accept", "application/json"),
   ("X-ClockodoApiUser", api.email),
   ("X-ClockodoApiKey", "***"),
   ("X-Clockodo-External-Application", "mcp-ts")]

/-- An HTTP response: status, status text, the body as text (read by
`response.text()` on the error path) and as JSON (`response.json()`). -/
structure HttpResponse where
  status : Int
  statusText : String
  bodyText : String
  bodyJson : Json

/-- Outcome of one `fetch` call: either a response or a thrown
transport-level error (DNS, timeout, connection reset, ...). -/
inductive NetResult where
  | response : HttpResponse → NetResult
  | failure : JsError → NetResult

/-- The message of the error thrown on a non-2xx status. -/
def httpMsg (status : Int) (statusText : String) : String :=
  "HTTP " ++ toString status ++ ": " ++ statusText

/-- The message of the error thrown when schema validation fails. -/
def invalidFormatMsg (issues : List String) : String :=
  "Invalid API response format: " ++ joinIssues issues

/-- `makeRequest` from `clockodo.ts`, returning the produced log lines and
the outcome.  The backend is a function from the sent headers to a
`NetResult`.  The source's `try`/`catch` is inlined per branch: an error
thrown inside the `try` (the non-2xx error, the `ZodError`) reaches the
same `catch`, which wraps `ZodError`s and logs-then-rethrows everything
else unchanged. -/
def makeRequest {T : Type} (api : ClockodoAPI) (endpoint : String)
    (validate : Json → Except (List String) T)
    (net : List (String × String) → NetResult) :
    List LogEntry × Except JsError T :=
  let url := api.baseUrl ++ endpoint
  let reqLog : LogEntry := ⟨">>> REQUEST GET " ++ url, maskedHeaders api⟩
  match net (realHeaders api) with
  | .failure e =>
      if e.kind = "ZodError" then
        ([reqLog, ⟨"!!! ERROR: Zod validation error", [("error", e.message)]⟩],
         Except.error ⟨"Error", "Invalid API response format: " ++ e.message⟩)
      else
        ([reqLog, ⟨"!!! ERROR: Request failed", [("error", e.message), ("url", url)]⟩],
         Except.error e)
  | .response r =>
      let respLog : LogEntry :=
        ⟨"<<< RESPONSE " ++ toString r.status ++ " " ++ r.statusText, []⟩
      if 200 ≤ r.status ∧ r.status ≤ 299 then
        let dataLog : LogEntry := ⟨"Response data received", []⟩
        match validate r.bodyJson with
        | .ok v =>
            ([reqLog, respLog, dataLog, ⟨"Data successfully validated with schema", []⟩],
             Except.ok v)
        | .error issues =>
            ([reqLog, respLog, dataLog,
              ⟨"!!! ERROR: Zod validation error", [("error", joinIssues issues)]⟩],
             Except.error ⟨"Error", invalidFormatMsg issues⟩)
      else
        ([reqLog, respLog,
          ⟨"!!! ERROR: " ++ httpMsg r.status r.statusText,
           [("url", url), ("responseBody", r.bodyText)]⟩,
          ⟨"!!! ERROR: Request failed", [("error", httpMsg r.status r.statusText), ("url", url)]⟩],
         Except.error ⟨"Error", httpMsg r.status r.statusText⟩)

/-- The shared `while (hasMorePages)` pagination loop.  `fetch` is one
already-validated page fetch (`makeRequest` applied to the endpoint of the
given page number), `select` is what the loop appends to the accumulator
for a page (the raw item array for users/projects, the user-filtered array
for entries).  Returns the list of requested page numbers together with
the outcome; `none` means the fuel ran out while the loop was still
running.  The continuation test is the source's
`hasMorePages = page < response.paging.count_pages`, on the local
`page` counter. -/
def paginateGo {α : Type} (fetch : Nat → Except JsError (PageResp α))
    (select : PageResp α → List α) :
    Nat → Nat → List α → Option (List Nat × Except JsError (List α))
  | 0, _, _ => none
  | fuel + 1, page, acc =>
      match fetch page with
      | .error e => some ([page], Except.error e)
      | .ok resp =>
          let acc2 := acc ++ select resp
          if (page : Int) < resp.paging.count_pages then
            match paginateGo fetch select fuel (page + 1) acc2 with
            | none => none
            | some (t, r) => some (page :: t, r)
          else
            some ([page], Except.ok acc2)

/-- The operation-level `catch`: a failure is rewrapped as
`"Failed to fetch {what} from Clockodo API: <cause message>"`. -/
def wrapFailure {α : Type} (what : String) (r : Except JsError (List α)) :
    Except JsError (List α) :=
  match r with
  | .ok l => Except.ok l
  | .error e =>
      Except.error ⟨"Error",
        "Failed to fetch " ++ what ++ " from Clockodo API: " ++ e.message⟩

/-- `getUsers()`: paginate from page 1 with an empty accumulator, appending
each page's `data` array; wrap any failure with the users context. -/
def getUsersRun {α : Type} (fetch : Nat → Except JsError (PageResp α))
    (fuel : Nat) : Option (List Nat × Except JsError (List α)) :=
  match paginateGo fetch (fun r => r.items) fuel 1 [] with
  | none => none
  | some (t, r) => some (t, wrapFailure "users" r)

/-- `getProjects()`: identical loop, projects context. -/
def getProjectsRun {α : Type} (fetch : Nat → Except JsError (PageResp α))
    (fuel : Nat) : Option (List Nat × Except JsError (List α)) :=
  match paginateGo fetch (fun r => r.items) fuel 1 [] with
  | none => none
  | some (t, r) => some (t, wrapFailure "projects" r)

/-- `getEntries(userId, timeSince, timeUntil)`: the same loop, but each
page contributes `response.entries.filter(entry => entry.users_id ===
userId)`; the continuation test still reads the unfiltered envelope. -/
def getEntriesRun (userId : Int)
    (fetch : Nat → Except JsError (PageResp ClockodoEntry))
    (fuel : Nat) : Option (List Nat × Except JsError (List ClockodoEntry)) :=
  match paginateGo fetch
      (fun r => r.items.filter (fun en => en.users_id == userId)) fuel 1 [] with
  | none => none
  | some (t, r) => some (t, wrapFailure "entries" r)

/-- The endpoint string requested for one users page. -/
def usersEndpoint (page : Nat) : String := "/v3/users?page=" ++ toString page

/-- `getUsers()` composed down to the network layer: each page fetch is
`makeRequest` against the users endpoint with the users response schema. -/
def getUsersFromNet (api : ClockodoAPI)
    (net : Nat → List (String × String) → NetResult) (fuel : Nat) :
    Option (List Nat × Except JsError (List Json)) :=
  getUsersRun
    (fun p => (makeRequest api (usersEndpoint p) parseUsersResponse (net p)).2)
    fuel

/-- The pagination driver as the spec sentence behind claim C3 describes
it (a definition following the claim's words, for comparison with
`paginateGo`): after each page the loop is said to continue exactly when
the returned envelope reports `current_page < count_pages`, the next page
requested being that envelope's `current_page + 1`. -/
def specDrivenTrace {α : Type} (fetch : Nat → Except JsError (PageResp α)) :
    Nat → Nat → List Nat
  | 0, _ => []
  | fuel + 1, page =>
      match fetch page with
      | .error _ => [page]
      | .ok r =>
          if r.paging.current_page < r.paging.count_pages then
            page :: specDrivenTrace fetch fuel (r.paging.current_page + 1).toNat
          else
            [page]

/-! Concrete fixtures used to instantiate the theorems below. -/

/-- A two-page users/projects backend: page `q` carries items `[q, q+10]`
and an envelope declaring `count_pages = 2`, `current_page = q`. -/
def pageRespA (q : Nat) : PageResp Int :=
  ⟨[(q : Int), (q : Int) + 10], ⟨2, (q : Int), 2, 4⟩⟩

/-- Fetch function of the `pageRespA` backend. -/
def fetchA : Nat → Except JsError (PageResp Int) :=
  fun q => Except.ok (pageRespA q)

/-- A concrete time entry owned by user `u`. -/
def demoEntry (u : Int) : ClockodoEntry :=
  ⟨1, 2, none, u, 1, none, "2024-01-01T08:00:00Z", "2024-01-01T09:00:00Z",
   "2024-01-01T09:00:01Z", "2024-01-01T09:00:01Z",
   none, none, none, none, none, none, none⟩

/-- A two-page entries backend: every page holds one entry of user 7 and
one of user 8, envelope `count_pages = 2`, `current_page = q`. -/
def pageRespE (q : Nat) : PageResp ClockodoEntry :=
  ⟨[demoEntry 7, demoEntry 8], ⟨2, (q : Int), 2, 4⟩⟩

/-- Fetch function of the `pageRespE` backend. -/
def fetchE2 : Nat → Except JsError (PageResp ClockodoEntry) :=
  fun q => Except.ok (pageRespE q)

/-- A backend whose page 1 succeeds (declaring three pages) and whose
page 2 fails with an HTTP 500 error. -/
def fetchFailB : Nat → Except JsError (PageResp Int) :=
  fun q =>
    if q < 2 then Except.ok ⟨[(q : Int)], ⟨1, (q : Int), 3, 3⟩⟩
    else Except.error ⟨"Error", "HTTP 500: Internal Server Error"⟩

/-- The entries version of `fetchFailB`. -/
def fetchFailE : Nat → Except JsError (PageResp ClockodoEntry) :=
  fun q =>
    if q < 2 then Except.ok ⟨[demoEntry 7], ⟨1, (q : Int), 3, 3⟩⟩
    else Except.error ⟨"Error", "HTTP 500: Internal Server Error"⟩

/-- A constructed client with concrete (non-secret) credentials. -/
def demoAPI : ClockodoAPI := ⟨"dev@example.com", "k123", clockodoBaseUrl⟩

/-- A network that always answers 404. -/
def notFoundNet : List (String × String) → NetResult :=
  fun _ => NetResult.response ⟨404, "Not Found", "page missing", Json.null⟩

/-- A response body that fails validation with three issues: the only user
record is missing `id` and `name`, and the envelope is missing. -/
def badUserBody : Json :=
  Json.obj [("data",
    Json.arr [Json.obj [("email", Json.str "a@b.c"), ("active", Json.bool true)]])]

/-- A network that always answers 200 with `badUserBody`. -/
def badBodyNet : Nat → List (String × String) → NetResult :=
  fun _ _ => NetResult.response ⟨200, "OK", "", badUserBody⟩

/-- A concrete transport failure (connection reset). -/
def resetError : JsError := ⟨"TypeError", "ECONNRESET"⟩

/-- A network whose fetch always rejects with `resetError`. -/
def failingNet : List (String × String) → NetResult :=
  fun _ => NetResult.failure resetError

/-- A network that always answers 200 with an (invalid) `null` body,
independent of the sent headers. -/
def okNet : List (String × String) → NetResult :=
  fun _ => NetResult.response ⟨200, "OK", "", Json.null⟩

/-- A backend with one page of real data declaring `count_pages = 3` in
every envelope while reporting `current_page = 5`: the requested-page
counter and the reported current page disagree. -/
def stubbornFetch : Nat → Except JsError (PageResp Int) :=
  fun _ => Except.ok ⟨[], ⟨1, 5, 3, 0⟩⟩

/-- A single-page backend declaring `count_pages = 0`. -/
def zeroPagesFetch : Nat → Except JsError (PageResp Int) :=
  fun _ => Except.ok ⟨[5], ⟨1, 1, 0, 1⟩⟩

/-- The entries version of `zeroPagesFetch`. -/
def zeroPagesEntryFetch : Nat → Except JsError (PageResp ClockodoEntry) :=
  fun _ => Except.ok ⟨[demoEntry 7, demoEntry 9], ⟨1, 1, 0, 2⟩⟩

/-- A backend whose envelopes declare `count_pages = 3, 3, 2` on pages
1, 2, 3: the loop stops at the first requested page at or past the
declared page count, namely page 3. -/
def varCpFetch : Nat → Except JsError (PageResp Int) :=
  fun q => Except.ok ⟨[(q : Int)], ⟨1, (q : Int), if q ≤ 2 then 3 else 2, 4⟩⟩

/-! Helper lemmas about the pagination loop. -/

/-- Running the loop from page `p` over a backend that answers every page
up to `k`, keeps the loop going strictly below `k`, and stops it at `k`:
the requested pages are exactly `p, p+1, ..., k` and the result is the
accumulator followed by the per-page selections in page order. -/
theorem paginateGo_run {α : Type} (fetch : Nat → Except JsError (PageResp α))
    (select : PageResp α → List α) (resp : Nat → PageResp α) (k : Nat)
    (hstop : ¬((k : Int) < (resp k).paging.count_pages)) :
    ∀ (fuel p : Nat) (acc : List α), p ≤ k →
      (∀ q, p ≤ q → q ≤ k → fetch q = Except.ok (resp q)) →
      (∀ q, p ≤ q → q < k → (q : Int) < (resp q).paging.count_pages) →
      k < fuel + p →
      paginateGo fetch select fuel p acc =
        some (List.range' p (k + 1 - p),
          Except.ok (acc ++
            ((List.range' p (k + 1 - p)).map (fun q => select (resp q))).flatten)) := by
  intro fuel
  induction fuel with
  | zero => intro p acc hpk _ _ hfuel; omega
  | succ n ih =>
    intro p acc hpk hok hcont hfuel
    have hfp : fetch p = Except.ok (resp p) := hok p le_rfl hpk
    rcases Nat.lt_or_ge p k with hpk2 | hpk2
    · have hc : (p : Int) < (resp p).paging.count_pages := hcont p le_rfl hpk2
      have hrec := ih (p + 1) (acc ++ select (resp p)) hpk2
        (fun q h1 h2 => hok q (by omega) h2)
        (fun q h1 h2 => hcont q (by omega) h2) (by omega)
      have hrange : List.range' p (k + 1 - p) = p :: List.range' (p + 1) (k - p) := by
        have h2 : k + 1 - p = (k - p) + 1 := by omega
        rw [h2]; rfl
      simp only [paginateGo, hfp]
      rw [if_pos hc, hrec, hrange]
      simp [List.append_assoc]
    · have hpk3 : p = k := le_antisymm hpk hpk2
      subst hpk3
      simp only [paginateGo, hfp]
      rw [if_neg hstop]
      have h1 : p + 1 - p = 1 := by omega
      rw [h1]
      simp [List.range']

/-- Running the loop from page `p` over a backend that answers (and keeps
the loop going on) every page strictly below `k` and fails at page `k`:
pages `p, ..., k` are requested and the loop result is exactly the error
of page `k` — the items accumulated so far do not appear in the result. -/
theorem paginateGo_fail {α : Type} (fetch : Nat → Except JsError (PageResp α))
    (select : PageResp α → List α) (e : JsError) (k : Nat)
    (hfe : fetch k = Except.error e) :
    ∀ (fuel p : Nat) (acc : List α), p ≤ k →
      (∀ q, p ≤ q → q < k →
        ∃ r, fetch q = Except.ok r ∧ (q : Int) < r.paging.count_pages) →
      k < fuel + p →
      paginateGo fetch select fuel p acc =
        some (List.range' p (k + 1 - p), Except.error e) := by
  intro fuel
  induction fuel with
  | zero => intro p acc hpk _ hfuel; omega
  | succ n ih =>
    intro p acc hpk hcont hfuel
    rcases Nat.lt_or_ge p k with hpk2 | hpk2
    · obtain ⟨r, hfp, hc⟩ := hcont p le_rfl hpk2
      have hrec := ih (p + 1) (acc ++ select r) hpk2
        (fun q h1 h2 => hcont q (by omega) h2) (by omega)
      have hrange : List.range' p (k + 1 - p) = p :: List.range' (p + 1) (k - p) := by
        have h2 : k + 1 - p = (k - p) + 1 := by omega
        rw [h2]; rfl
      have h3 : k + 1 - (p + 1) = k - p := by omega
      simp only [paginateGo, hfp]
      rw [if_pos hc, hrec, h3, hrange]
    · have hpk3 : p = k := le_antisymm hpk hpk2
      subst hpk3
      simp only [paginateGo, hfe]
      have h1 : p + 1 - p = 1 := by omega
      rw [h1]
      simp [List.range']

/-- Whatever the backend does, a finished loop's first requested page is
the page it was started on. -/
theorem paginateGo_head {α : Type} (fetch : Nat → Except JsError (PageResp α))
    (select : PageResp α → List α) :
    ∀ (fuel p : Nat) (acc : List α) (t : List Nat)
      (r : Except JsError (List α)),
      paginateGo fetch select fuel p acc = some (t, r) → t.head? = some p := by
  intro fuel
  cases fuel with
  | zero => intro p acc t r h; simp [paginateGo] at h
  | succ n =>
    intro p acc t r h
    simp only [paginateGo] at h
    cases hf : fetch p with
    | error e =>
      rw [hf] at h
      simp only [Option.some.injEq, Prod.mk.injEq] at h
      rw [← h.1]
      rfl
    | ok resp =>
      rw [hf] at h
      simp only at h
      by_cases hc : (p : Int) < resp.paging.count_pages
      · rw [if_pos hc] at h
        cases hrec : paginateGo fetch select n (p + 1) (acc ++ select resp) with
        | none => rw [hrec] at h; simp at h
        | some pr =>
          rw [hrec] at h
          obtain ⟨t', r'⟩ := pr
          simp only [Option.some.injEq, Prod.mk.injEq] at h
          rw [← h.1]
          rfl
      · rw [if_neg hc] at h
        simp only [Option.some.injEq, Prod.mk.injEq] at h
        rw [← h.1]
        rfl

/-! Helper lemmas about issue messages. -/

/-- Every issue of a list occurs inside the concatenated rendering. -/
theorem joinIssues_contains (issues : List String) (i : String)
    (hmem : i ∈ issues) : strContains (joinIssues issues) i := by
  induction issues with
  | nil => cases hmem
  | cons a rest ih =>
    rcases List.mem_cons.mp hmem with h | h
    · subst h
      exact ⟨"", joinIssues rest, by simp [joinIssues]⟩
    · obtain ⟨x, y, hxy⟩ := ih h
      exact ⟨a ++ x, y, by simp [joinIssues, hxy, String.append_assoc]⟩

/-- Containment survives prepending a fixed prelude to the message. -/
theorem strContains_append_left (pre msg sub : String)
    (h : strContains msg sub) : strContains (pre ++ msg) sub := by
  obtain ⟨x, y, hxy⟩ := h
  exact ⟨pre ++ x, y, by simp [hxy, String.append_assoc]⟩

/-- A contained substring is no longer than the whole message. -/
theorem strContains_length (msg sub : String) (h : strContains msg sub) :
    sub.length ≤ msg.length := by
  obtain ⟨x, y, hxy⟩ := h
  subst hxy
  simp [String.length_append]
  omega

/-- When the checker reports a non-empty issue list, `parse` fails with
exactly that list. -/
theorem parseUsersResponse_error (j : Json) (issues : List String)
    (hval : checkUsersResponse j = issues) (hne : issues ≠ []) :
    parseUsersResponse j = Except.error issues := by
  unfold parseUsersResponse
  rw [hval]
  cases issues with
  | nil => exact absurd rfl hne
  | cons a rest => rfl

/-- A pagination run over a backend that answers every page and declares
`count_pages = N` in every envelope: pages `1, ..., N` are requested and
the result is the concatenation of the per-page selections. -/
theorem run_const_cp {α : Type} (fetch : Nat → Except JsError (PageResp α))
    (select : PageResp α → List α) (resp : Nat → PageResp α) (N : Nat)
    (hN : 1 ≤ N) (hf : ∀ q, fetch q = Except.ok (resp q))
    (hcp : ∀ q, (resp q).paging.count_pages = (N : Int))
    (fuel : Nat) (hfuel : N ≤ fuel) :
    paginateGo fetch select fuel 1 [] =
      some (List.range' 1 N,
        Except.ok (((List.range' 1 N).map (fun q => select (resp q))).flatten)) := by
  have hrun := paginateGo_run fetch select resp N (by rw [hcp N]; omega) fuel 1 [] hN
    (fun q _ _ => hf q) (fun q h1 h2 => by rw [hcp q]; exact_mod_cast h2) (by omega)
  simpa using hrun

/-- C1: for every retrieval operation (`getUsers`, `getProjects`,
`getEntries`) and every backend whose every response declares
`count_pages = N` (`N ≥ 1`) and reports `current_page` equal to the
requested page, exactly `N` page fetches occur, in strictly ascending page
order starting at 1 (`List.range' 1 N = [1, ..., N]`), and the resolved
value is the concatenation of the per-page item arrays in page order with
every record passed through unchanged (for `getEntries` the per-page item
array is the page's contribution after the entry filter of §4.1); in
particular the result length is the sum of the per-page item counts. -/
theorem C1_pagination_complete {α : Type}
    (respU respP : Nat → PageResp α) (respE : Nat → PageResp ClockodoEntry)
    (fetchU fetchP : Nat → Except JsError (PageResp α))
    (fetchE : Nat → Except JsError (PageResp ClockodoEntry))
    (N : Nat) (hN : 1 ≤ N)
    (hfU : ∀ q, fetchU q = Except.ok (respU q))
    (hcpU : ∀ q, (respU q).paging.count_pages = (N : Int))
    (hcurU : ∀ q, (respU q).paging.current_page = (q : Int))
    (hfP : ∀ q, fetchP q = Except.ok (respP q))
    (hcpP : ∀ q, (respP q).paging.count_pages = (N : Int))
    (hcurP : ∀ q, (respP q).paging.current_page = (q : Int))
    (hfE : ∀ q, fetchE q = Except.ok (respE q))
    (hcpE : ∀ q, (respE q).paging.count_pages = (N : Int))
    (hcurE : ∀ q, (respE q).paging.current_page = (q : Int))
    (fuel : Nat) (hfuel : N ≤ fuel) (userId : Int) :
    getUsersRun fetchU fuel =
      some (List.range' 1 N,
        Except.ok (((List.range' 1 N).map (fun q => (respU q).items)).flatten)) ∧
    (((List.range' 1 N).map (fun q => (respU q).items)).flatten).length =
      ((List.range' 1 N).map (fun q => ((respU q).items).length)).sum ∧
    getProjectsRun fetchP fuel =
      some (List.range' 1 N,
        Except.ok (((List.range' 1 N).map (fun q => (respP q).items)).flatten)) ∧
    getEntriesRun userId fetchE fuel =
      some (List.range' 1 N,
        Except.ok (((List.range' 1 N).map
          (fun q => (respE q).items.filter (fun en => en.users_id == userId))).flatten)) := by
  refine ⟨?_, ?_, ?_, ?_⟩
  · simp only [getUsersRun,
      run_const_cp fetchU (fun r => r.items) respU N hN hfU hcpU fuel hfuel]
    simp [wrapFailure]
  · rw [List.length_flatten, List.map_map]
    rfl
  · simp only [getProjectsRun,
      run_const_cp fetchP (fun r => r.items) respP N hN hfP hcpP fuel hfuel]
    simp [wrapFailure]
  · simp only [getEntriesRun,
      run_const_cp fetchE (fun r => r.items.filter (fun en => en.users_id == userId))
        respE N hN hfE hcpE fuel hfuel]
    simp [wrapFailure]

/-- Witness for C1 at the concrete two-page backends `fetchA`/`fetchE2`. -/
theorem C1_witness :
    getUsersRun fetchA 2 =
      some ([1, 2], Except.ok ([1, 11, 2, 12] : List Int)) ∧
    ([1, 11, 2, 12] : List Int).length = [2, 2].sum ∧
    getProjectsRun fetchA 2 =
      some ([1, 2], Except.ok ([1, 11, 2, 12] : List Int)) ∧
    getEntriesRun 7 fetchE2 2 =
      some ([1, 2], Except.ok [demoEntry 7, demoEntry 7]) := by
  have h := C1_pagination_complete pageRespA pageRespA pageRespE fetchA fetchA fetchE2
    2 (by decide) (fun q => rfl) (fun q => rfl) (fun q => rfl)
    (fun q => rfl) (fun q => rfl) (fun q => rfl)
    (fun q => rfl) (fun q => rfl) (fun q => rfl)
    2 (by decide) 7
  exact ⟨h.1, h.2.1, h.2.2.1, h.2.2.2⟩

/-- C2: `getEntries(userId, ...)` over a backend whose date-range result
spans `P` pages fetches exactly pages `1, ..., P` — the page sequence is
fixed by the unfiltered envelope and is the same for every `userId` (the
statement holds uniformly in `userId`) — and returns, in received order,
exactly the received entries whose `users_id` equals `userId`. -/
theorem C2_entries_client_filter
    (respE : Nat → PageResp ClockodoEntry)
    (fetchE : Nat → Except JsError (PageResp ClockodoEntry))
    (P : Nat) (hP : 1 ≤ P)
    (hfE : ∀ q, fetchE q = Except.ok (respE q))
    (hcpE : ∀ q, (respE q).paging.count_pages = (P : Int))
    (fuel : Nat) (hfuel : P ≤ fuel) (userId : Int) :
    getEntriesRun userId fetchE fuel =
      some (List.range' 1 P,
        Except.ok (((List.range' 1 P).map
          (fun q => (respE q).items.filter (fun en => en.users_id == userId))).flatten)) ∧
    (∀ en, en ∈ ((List.range' 1 P).map
        (fun q => (respE q).items.filter (fun en2 => en2.users_id == userId))).flatten →
      en.users_id = userId) := by
  constructor
  · simp only [getEntriesRun,
      run_const_cp fetchE (fun r => r.items.filter (fun en => en.users_id == userId))
        respE P hP hfE hcpE fuel hfuel]
    simp [wrapFailure]
  · intro en hen
    rw [List.mem_flatten] at hen
    obtain ⟨l, hl, hel⟩ := hen
    rw [List.mem_map] at hl
    obtain ⟨q, _, rfl⟩ := hl
    have := (List.mem_filter.mp hel).2
    exact eq_of_beq this

/-- Witness for C2 at the concrete backend `fetchE2`, for user 8. -/
theorem C2_witness :
    getEntriesRun 8 fetchE2 2 =
      some ([1, 2], Except.ok [demoEntry 8, demoEntry 8]) := by
  exact (C2_entries_client_filter pageRespE fetchE2 2 (by decide)
    (fun q => rfl) (fun q => rfl) 2 (by decide) 8).1

/-- C3 counterexample: against the backend `stubbornFetch`, whose every
envelope reports `current_page = 5` and `count_pages = 3`, the claimed
rule ("continue iff the returned `current_page < count_pages`", as written
out in `specDrivenTrace`) stops after the very first page, but the code
requests pages 1, 2 and 3: the loop is driven by the local requested-page
counter, not by the envelope's `current_page`. -/
theorem C3_counterexample :
    getUsersRun stubbornFetch 10 =
      some ([1, 2, 3], Except.ok ([] : List Int)) ∧
    specDrivenTrace stubbornFetch 10 1 = [1] ∧
    ([1, 2, 3] : List Nat) ≠ [1] :=
  ⟨rfl, rfl, by decide⟩

/-- C3 (amended): in every pagination loop, after receiving a page the
client continues to the next page if and only if the *requested* page
number is below the returned envelope's `count_pages`, and the next page
requested is the requested page number plus one; the loop stops exactly
after the first requested page `k` whose response reports
`count_pages ≤ k`.  The envelope's `current_page` is never consulted: the
statement places no constraint on it. -/
theorem C3_amended_requested_page_drives_loop {α : Type}
    (fetch : Nat → Except JsError (PageResp α)) (select : PageResp α → List α)
    (resp : Nat → PageResp α) (k : Nat) (hk : 1 ≤ k)
    (hf : ∀ q, 1 ≤ q → q ≤ k → fetch q = Except.ok (resp q))
    (hstop : ¬((k : Int) < (resp k).paging.count_pages))
    (hcont : ∀ q, 1 ≤ q → q < k → (q : Int) < (resp q).paging.count_pages)
    (fuel : Nat) (hfuel : k ≤ fuel) :
    paginateGo fetch select fuel 1 [] =
      some (List.range' 1 k,
        Except.ok (((List.range' 1 k).map (fun q => select (resp q))).flatten)) := by
  have hrun := paginateGo_run fetch select resp k hstop fuel 1 [] hk
    (fun q h1 h2 => hf q h1 h2) hcont (by omega)
  simpa using hrun

/-- Witness for the amended C3 at the backend `varCpFetch`, whose declared
page counts are 3, 3, 2 on pages 1, 2, 3: the loop stops after page 3, the
first requested page at or past its declared count. -/
theorem C3_amended_witness :
    paginateGo varCpFetch (fun r => r.items) 3 1 [] =
      some ([1, 2, 3], Except.ok ([1, 2, 3] : List Int)) := by
  exact C3_amended_requested_page_drives_loop varCpFetch (fun r => r.items)
    (fun q => ⟨[(q : Int)], ⟨1, (q : Int), if q ≤ 2 then 3 else 2, 4⟩⟩)
    3 (by decide) (fun q _ _ => rfl) (by decide)
    (by intro q h1 h2; interval_cases q <;> decide)
    3 (by decide)

/-- C4: if any page fetch fails — page `k ≥ 1`, after pages `1..k-1`
succeeded and kept the loop going — the whole operation fails with the
operation-specific wrapper `"Failed to fetch {users|entries|projects} from
Clockodo API: <cause>"` around the failing page's cause message, and no
items are returned: the items accumulated from pages `1..k-1` do not
appear anywhere in the (error) result. -/
theorem C4_page_failure_aborts {α : Type}
    (fetchU fetchP : Nat → Except JsError (PageResp α))
    (fetchE : Nat → Except JsError (PageResp ClockodoEntry))
    (e : JsError) (k : Nat) (hk : 1 ≤ k)
    (hfailU : fetchU k = Except.error e)
    (hprevU : ∀ q, 1 ≤ q → q < k →
      ∃ r, fetchU q = Except.ok r ∧ (q : Int) < r.paging.count_pages)
    (hfailP : fetchP k = Except.error e)
    (hprevP : ∀ q, 1 ≤ q → q < k →
      ∃ r, fetchP q = Except.ok r ∧ (q : Int) < r.paging.count_pages)
    (hfailE : fetchE k = Except.error e)
    (hprevE : ∀ q, 1 ≤ q → q < k →
      ∃ r, fetchE q = Except.ok r ∧ (q : Int) < r.paging.count_pages)
    (fuel : Nat) (hfuel : k ≤ fuel) (userId : Int) :
    getUsersRun fetchU fuel =
      some (List.range' 1 k, Except.error ⟨"Error",
        "Failed to fetch users from Clockodo API: " ++ e.message⟩) ∧
    getProjectsRun fetchP fuel =
      some (List.range' 1 k, Except.error ⟨"Error",
        "Failed to fetch projects from Clockodo API: " ++ e.message⟩) ∧
    getEntriesRun userId fetchE fuel =
      some (List.range' 1 k, Except.error ⟨"Error",
        "Failed to fetch entries from Clockodo API: " ++ e.message⟩) := by
  have hU : paginateGo fetchU (fun r => r.items) fuel 1 [] =
      some (List.range' 1 k, Except.error e) := by
    simpa using paginateGo_fail fetchU (fun r => r.items) e k hfailU fuel 1 []
      hk hprevU (by omega)
  have hP : paginateGo fetchP (fun r => r.items) fuel 1 [] =
      some (List.range' 1 k, Except.error e) := by
    simpa using paginateGo_fail fetchP (fun r => r.items) e k hfailP fuel 1 []
      hk hprevP (by omega)
  have hE : paginateGo fetchE
      (fun r => r.items.filter (fun en => en.users_id == userId)) fuel 1 [] =
      some (List.range' 1 k, Except.error e) := by
    simpa using paginateGo_fail fetchE
      (fun r => r.items.filter (fun en => en.users_id == userId)) e k hfailE
      fuel 1 [] hk hprevE (by omega)
  refine ⟨?_, ?_, ?_⟩
  · simp only [getUsersRun, hU]; rfl
  · simp only [getProjectsRun, hP]; rfl
  · simp only [getEntriesRun, hE]; rfl

/-- Witness for C4 at the backends `fetchFailB`/`fetchFailE`, which fail
on page 2 of a declared 3-page sequence: page 1's item is discarded. -/
theorem C4_witness :
    getUsersRun fetchFailB 2 =
      some ([1, 2], Except.error ⟨"Error",
        "Failed to fetch users from Clockodo API: HTTP 500: Internal Server Error"⟩) ∧
    getProjectsRun fetchFailB 2 =
      some ([1, 2], Except.error ⟨"Error",
        "Failed to fetch projects from Clockodo API: HTTP 500: Internal Server Error"⟩) ∧
    getEntriesRun 7 fetchFailE 2 =
      some ([1, 2], Except.error ⟨"Error",
        "Failed to fetch entries from Clockodo API: HTTP 500: Internal Server Error"⟩) := by
  have hprevB : ∀ q, 1 ≤ q → q < 2 →
      ∃ r, fetchFailB q = Except.ok r ∧ (q : Int) < r.paging.count_pages := by
    intro q h1 h2
    interval_cases q
    exact ⟨⟨[(1 : Int)], ⟨1, 1, 3, 3⟩⟩, rfl, by decide⟩
  have hprevE : ∀ q, 1 ≤ q → q < 2 →
      ∃ r, fetchFailE q = Except.ok r ∧ (q : Int) < r.paging.count_pages := by
    intro q h1 h2
    interval_cases q
    exact ⟨⟨[demoEntry 7], ⟨1, 1, 3, 3⟩⟩, rfl, by decide⟩
  exact C4_page_failure_aborts fetchFailB fetchFailB fetchFailE
    ⟨"Error", "HTTP 500: Internal Server Error"⟩ 2 (by decide)
    rfl hprevB rfl hprevB rfl hprevE 2 (by decide) 7

/-- C5: a non-2xx HTTP status makes `makeRequest` fail with an error
carrying the numeric status and the status text (`"HTTP <status>:
<statusText>"`); the response body is captured only in the diagnostic log
entry — the statement holds for every body, so neither the propagated
error nor the outcome depends on it — and no validated value is
returned. -/
theorem C5_non2xx_fails {T : Type} (api : ClockodoAPI) (endpoint : String)
    (validate : Json → Except (List String) T)
    (net : List (String × String) → NetResult) (r : HttpResponse)
    (hnet : net (realHeaders api) = NetResult.response r)
    (hstatus : ¬(200 ≤ r.status ∧ r.status ≤ 299)) :
    (makeRequest api endpoint validate net).2 =
      Except.error ⟨"Error", httpMsg r.status r.statusText⟩ ∧
    LogEntry.mk ("!!! ERROR: " ++ httpMsg r.status r.statusText)
        [("url", api.baseUrl ++ endpoint), ("responseBody", r.bodyText)]
      ∈ (makeRequest api endpoint validate net).1 := by
  simp only [makeRequest, hnet]
  rw [if_neg hstatus]
  exact ⟨rfl, by simp⟩

/-- Witness for C5: a 404 answer. -/
theorem C5_witness :
    (makeRequest demoAPI "/v3/users?page=1" parseUsersResponse notFoundNet).2 =
      Except.error ⟨"Error", httpMsg 404 "Not Found"⟩ ∧
    LogEntry.mk ("!!! ERROR: " ++ httpMsg 404 "Not Found")
        [("url", clockodoBaseUrl ++ "/v3/users?page=1"), ("responseBody", "page missing")]
      ∈ (makeRequest demoAPI "/v3/users?page=1" parseUsersResponse notFoundNet).1 :=
  C5_non2xx_fails demoAPI "/v3/users?page=1" parseUsersResponse notFoundNet
    ⟨404, "Not Found", "page missing", Json.null⟩ rfl (by decide)

/-- C6: a 2xx response whose JSON body fails shape validation makes the
operation fail with `"Invalid API response format: ..."`, whose message
renders the *entire* issue list — every issue occurs inside the message —
and zero entities are returned: end to end, `getUsers` resolves to the
wrapped error and no user list. -/
theorem C6_validation_failure (api : ClockodoAPI)
    (net : Nat → List (String × String) → NetResult) (r : HttpResponse)
    (issues : List String)
    (hnet : net 1 (realHeaders api) = NetResult.response r)
    (hok : 200 ≤ r.status ∧ r.status ≤ 299)
    (hval : checkUsersResponse r.bodyJson = issues) (hne : issues ≠ [])
    (fuel : Nat) (hfuel : 1 ≤ fuel) :
    (makeRequest api (usersEndpoint 1) parseUsersResponse (net 1)).2 =
      Except.error ⟨"Error", invalidFormatMsg issues⟩ ∧
    getUsersFromNet api net fuel =
      some ([1], Except.error ⟨"Error",
        "Failed to fetch users from Clockodo API: " ++ invalidFormatMsg issues⟩) ∧
    (∀ i, i ∈ issues → strContains (invalidFormatMsg issues) i) := by
  have hparse := parseUsersResponse_error r.bodyJson issues hval hne
  have hmk : (makeRequest api (usersEndpoint 1) parseUsersResponse (net 1)).2 =
      Except.error ⟨"Error", invalidFormatMsg issues⟩ := by
    simp only [makeRequest, hnet]
    rw [if_pos hok, hparse]
  refine ⟨hmk, ?_, ?_⟩
  · have hfail := paginateGo_fail
      (fun p => (makeRequest api (usersEndpoint p) parseUsersResponse (net p)).2)
      (fun pr => pr.items) ⟨"Error", invalidFormatMsg issues⟩ 1 hmk fuel 1 []
      le_rfl (fun q h1 h2 => absurd h2 (by omega)) (by omega)
    simp only [show (1 : Nat) + 1 - 1 = 1 from rfl] at hfail
    simp only [getUsersFromNet, getUsersRun, hfail]
    rfl
  · intro i hi
    exact strContains_append_left "Invalid API response format: "
      (joinIssues issues) i (joinIssues_contains issues i hi)

/-- Witness for C6: `badUserBody` produces three issues (missing `id`,
missing `name`, missing envelope); the message carries them all. -/
theorem C6_witness :
    (makeRequest demoAPI (usersEndpoint 1) parseUsersResponse (badBodyNet 1)).2 =
      Except.error ⟨"Error", invalidFormatMsg
        ["data.0.id: Required", "data.0.name: Required", "paging: Required"]⟩ ∧
    getUsersFromNet demoAPI badBodyNet 1 =
      some ([1], Except.error ⟨"Error",
        "Failed to fetch users from Clockodo API: " ++ invalidFormatMsg
          ["data.0.id: Required", "data.0.name: Required", "paging: Required"]⟩) := by
  have h := C6_validation_failure demoAPI badBodyNet ⟨200, "OK", "", badUserBody⟩
    ["data.0.id: Required", "data.0.name: Required", "paging: Required"]
    rfl (by decide) rfl (by decide) 1 (by decide)
  exact ⟨h.1, h.2.1⟩

/-- C7: construction reads both credential variables once, at
construction, and succeeds exactly when both are non-empty (an absent
variable reads as `""`); otherwise it aborts by propagating the
configuration error, so no constructed client — and hence no retrieval
operation on one — exists. -/
theorem C7_construction_requires_credentials (emailVar apiKeyVar : Option String) :
    ((emailVar.getD "" = "" ∨ apiKeyVar.getD "" = "") →
      constructClockodoAPI emailVar apiKeyVar =
        Except.error ⟨"Error",
          "CLOCKODO_EMAIL and CLOCKODO_API_KEY environment variables are required"⟩) ∧
    ((emailVar.getD "" ≠ "" ∧ apiKeyVar.getD "" ≠ "") →
      constructClockodoAPI emailVar apiKeyVar =
        Except.ok ⟨emailVar.getD "", apiKeyVar.getD "", clockodoBaseUrl⟩) := by
  constructor
  · intro h
    simp only [constructClockodoAPI]
    rw [if_pos h]
  · intro h
    simp only [constructClockodoAPI]
    rw [if_neg (not_or.mpr h)]

/-- Witness for C7: an empty key aborts construction; a full pair
constructs the client. -/
theorem C7_witness :
    constructClockodoAPI (some "dev@example.com") (some "") =
      Except.error ⟨"Error",
        "CLOCKODO_EMAIL and CLOCKODO_API_KEY environment variables are required"⟩ ∧
    constructClockodoAPI (some "dev@example.com") (some "k123") =
      Except.ok ⟨"dev@example.com", "k123", clockodoBaseUrl⟩ := by
  constructor
  · exact (C7_construction_requires_credentials (some "dev@example.com") (some "")).1
      (Or.inr rfl)
  · exact (C7_construction_requires_credentials (some "dev@example.com") (some "k123")).2
      ⟨by decide, by decide⟩

/-- C8 counterexample: a transport failure (connection reset) propagates
out of `makeRequest` kind- and message-unchanged — but, contrary to the
claim, it is *not* wrapped with the endpoint path: the endpoint
`"/v3/users?page=1"` of the failed request occurs nowhere in the
propagated error's message.  The path is only written to the log. -/
theorem C8_counterexample :
    (makeRequest demoAPI "/v3/users?page=1" parseUsersResponse failingNet).2 =
      Except.error resetError ∧
    resetError.kind = "TypeError" ∧
    ¬ strContains resetError.message "/v3/users?page=1" := by
  refine ⟨rfl, rfl, ?_⟩
  intro h
  exact absurd (strContains_length _ _ h) (by decide)

/-- C8 (amended): a transport-level failure — any thrown error that is not
a `ZodError`, hence neither the non-2xx error nor a validation error —
propagates out of `makeRequest` as the very same error (same kind, same
message, not wrapped); the endpoint path of the failed request is recorded
for context in the diagnostic log entry only. -/
theorem C8_amended_transport_unmodified {T : Type} (api : ClockodoAPI)
    (endpoint : String) (validate : Json → Except (List String) T)
    (net : List (String × String) → NetResult) (e : JsError)
    (hnet : net (realHeaders api) = NetResult.failure e)
    (hkind : e.kind ≠ "ZodError") :
    (makeRequest api endpoint validate net).2 = Except.error e ∧
    LogEntry.mk "!!! ERROR: Request failed"
        [("error", e.message), ("url", api.baseUrl ++ endpoint)]
      ∈ (makeRequest api endpoint validate net).1 := by
  simp only [makeRequest, hnet]
  rw [if_neg hkind]
  exact ⟨rfl, by simp⟩

/-- Witness for the amended C8 at the connection-reset network. -/
theorem C8_amended_witness :
    (makeRequest demoAPI "/v3/users?page=1" parseUsersResponse failingNet).2 =
      Except.error resetError ∧
    LogEntry.mk "!!! ERROR: Request failed"
        [("error", "ECONNRESET"), ("url", clockodoBaseUrl ++ "/v3/users?page=1")]
      ∈ (makeRequest demoAPI "/v3/users?page=1" parseUsersResponse failingNet).1 :=
  C8_amended_transport_unmodified demoAPI "/v3/users?page=1" parseUsersResponse
    failingNet resetError rfl (by decide)

/-- C9: the API key value flows only into the outbound request headers,
never into produced text: for any two non-empty keys, as long as the
backend answers the two (differently-keyed) requests identically, the
entire `makeRequest` observation — every log entry, including the request
log with its masked header copy, and the outcome — is identical, and so is
the constructor's "initialized" log line. -/
theorem C9_apiKey_noninterference {T : Type} (email k1 k2 : String)
    (endpoint : String) (validate : Json → Except (List String) T)
    (net : List (String × String) → NetResult)
    (hk1 : k1 ≠ "") (hk2 : k2 ≠ "")
    (hsame : net (realHeaders ⟨email, k1, clockodoBaseUrl⟩) =
             net (realHeaders ⟨email, k2, clockodoBaseUrl⟩)) :
    makeRequest ⟨email, k1, clockodoBaseUrl⟩ endpoint validate net =
      makeRequest ⟨email, k2, clockodoBaseUrl⟩ endpoint validate net ∧
    initLog ⟨email, k1, clockodoBaseUrl⟩ = initLog ⟨email, k2, clockodoBaseUrl⟩ := by
  constructor
  · unfold makeRequest
    rw [hsame]
    rfl
  · unfold initLog
    rw [if_neg hk1, if_neg hk2]

/-- Witness for C9: two different secrets, identical observable runs. -/
theorem C9_witness :
    makeRequest ⟨"dev@example.com", "secretA", clockodoBaseUrl⟩ "/v3/users?page=1"
        parseUsersResponse okNet =
      makeRequest ⟨"dev@example.com", "secretB", clockodoBaseUrl⟩ "/v3/users?page=1"
        parseUsersResponse okNet ∧
    initLog ⟨"dev@example.com", "secretA", clockodoBaseUrl⟩ =
      initLog ⟨"dev@example.com", "secretB", clockodoBaseUrl⟩ :=
  C9_apiKey_noninterference "dev@example.com" "secretA" "secretB" "/v3/users?page=1"
    parseUsersResponse okNet (by decide) (by decide) rfl

/-- A single-step run: page 1 answers with an envelope declaring
`count_pages ≤ 1`, so the loop performs exactly one fetch. -/
theorem run_single_page {α : Type} (fetch : Nat → Except JsError (PageResp α))
    (select : PageResp α → List α) (r : PageResp α)
    (h1 : fetch 1 = Except.ok r) (hcp : r.paging.count_pages ≤ 1)
    (fuel : Nat) (hfuel : 1 ≤ fuel) :
    paginateGo fetch select fuel 1 [] = some ([1], Except.ok (select r)) := by
  have hstop : ¬(((1 : Nat) : Int) < ((fun _ : Nat => r) 1).paging.count_pages) := by
    simp only
    omega
  have h := paginateGo_run fetch select (fun _ => r) 1 hstop fuel 1 [] le_rfl
    (fun q hq1 hq2 => by
      have hq : q = 1 := by omega
      subst hq
      exact h1)
    (fun q hq1 hq2 => absurd hq2 (by omega)) (by omega)
  simpa using h

/-- C10: the loop always performs its first fetch (page 1) before
inspecting any envelope — a finished run's trace always starts with
page 1, for every backend — and if the first response declares
`count_pages ≤ 1` (including 0 or a negative count), exactly one fetch
occurs and that page's items (filtered, for `getEntries`) are returned. -/
theorem C10_first_page_always_fetched {α : Type}
    (fetchU fetchP : Nat → Except JsError (PageResp α))
    (fetchE : Nat → Except JsError (PageResp ClockodoEntry))
    (rU rP : PageResp α) (rE : PageResp ClockodoEntry)
    (h1U : fetchU 1 = Except.ok rU) (hcpU : rU.paging.count_pages ≤ 1)
    (h1P : fetchP 1 = Except.ok rP) (hcpP : rP.paging.count_pages ≤ 1)
    (h1E : fetchE 1 = Except.ok rE) (hcpE : rE.paging.count_pages ≤ 1)
    (fuel : Nat) (hfuel : 1 ≤ fuel) (userId : Int) :
    getUsersRun fetchU fuel = some ([1], Except.ok rU.items) ∧
    getProjectsRun fetchP fuel = some ([1], Except.ok rP.items) ∧
    getEntriesRun userId fetchE fuel =
      some ([1], Except.ok (rE.items.filter (fun en => en.users_id == userId))) ∧
    (∀ (g : Nat → Except JsError (PageResp α)) (t : List Nat)
        (res : Except JsError (List α)),
      getUsersRun g fuel = some (t, res) → t.head? = some 1) := by
  refine ⟨?_, ?_, ?_, ?_⟩
  · simp only [getUsersRun,
      run_single_page fetchU (fun pr => pr.items) rU h1U hcpU fuel hfuel]
    rfl
  · simp only [getProjectsRun,
      run_single_page fetchP (fun pr => pr.items) rP h1P hcpP fuel hfuel]
    rfl
  · simp only [getEntriesRun,
      run_single_page fetchE (fun pr => pr.items.filter (fun en => en.users_id == userId))
        rE h1E hcpE fuel hfuel]
    rfl
  · intro g t res hg
    unfold getUsersRun at hg
    cases hpg : paginateGo g (fun pr => pr.items) fuel 1 [] with
    | none => rw [hpg] at hg; simp at hg
    | some pr =>
      obtain ⟨t', r'⟩ := pr
      rw [hpg] at hg
      simp only [Option.some.injEq, Prod.mk.injEq] at hg
      rw [← hg.1]
      exact paginateGo_head g (fun pr => pr.items) fuel 1 [] t' r' hpg

/-- Witness for C10 at the `count_pages = 0` backends. -/
theorem C10_witness :
    getUsersRun zeroPagesFetch 1 = some ([1], Except.ok ([5] : List Int)) ∧
    getProjectsRun zeroPagesFetch 1 = some ([1], Except.ok ([5] : List Int)) ∧
    getEntriesRun 7 zeroPagesEntryFetch 1 =
      some ([1], Except.ok [demoEntry 7]) := by
  have h := C10_first_page_always_fetched zeroPagesFetch zeroPagesFetch
    zeroPagesEntryFetch ⟨[5], ⟨1, 1, 0, 1⟩⟩ ⟨[5], ⟨1, 1, 0, 1⟩⟩
    ⟨[demoEntry 7, demoEntry 9], ⟨1, 1, 0, 2⟩⟩
    rfl (by decide) rfl (by decide) rfl (by decide) 1 (by decide) 7
  exact ⟨h.1, h.2.1, h.2.2.1⟩

end Clockodo
